import Mathlib

/-!
Shallow embedding of the RIAN learning-platform backend (src/backend/server.py)
and proofs about its authentication, quiz, progress, workshop and dashboard
operations.

Conventions of the embedding:
* MongoDB collections become Lean lists kept in insertion order; `find_one`
  is `List.find?` (first match), `insert_one` appends, `update_one` with a
  `$set` document rewrites the first matching element, `count_documents` is
  the length of the filtered list.
* Python `datetime` values become `PyDateTime`: a wall-clock reading plus an
  optional timezone offset (`none` models a naive datetime).  `replace` with
  the UTC timezone keeps the wall clock and sets offset 0, exactly as in
  `get_current_user`; comparison of aware datetimes compares absolute
  instants (wall minus offset).  "Now" is passed in as the current UTC
  instant.
* Python float arithmetic on scores is embedded as exact rational (`ℚ`)
  arithmetic.
* Generated UUIDs and clock readings are explicit parameters.
* A FastAPI `HTTPException` becomes an `ApiError`; an uncaught Python
  exception (subscripting `None`) becomes `ApiError.internalError`.
* The dependency-injected `get_current_user` result reaches each handler as
  an `Option User` argument, as in the source's `Depends` parameter.
-/

namespace FormationAn

/-- Python datetime: wall-clock value plus optional timezone offset
(`none` = naive datetime, as for values read back without tzinfo). -/
structure PyDateTime where
  wall : Int
  tzOffset : Option Int
  deriving DecidableEq

/-- Model of `expires_at.replace(tzinfo=timezone.utc)` applied when
`tzinfo is None`: a naive value is reinterpreted as UTC wall time. -/
def PyDateTime.normUTC (d : PyDateTime) : PyDateTime :=
  match d.tzOffset with
  | none => { wall := d.wall, tzOffset := some 0 }
  | some _ => d

/-- Absolute instant of an (aware) datetime: wall clock minus offset. -/
def PyDateTime.instant (d : PyDateTime) : Int :=
  d.wall - d.tzOffset.getD 0

/-- Model of `expires_at < datetime.now(timezone.utc)` after the naive-case
normalization in `get_current_user` (strict comparison). -/
def isExpired (expires_at : PyDateTime) (now : Int) : Bool :=
  decide (expires_at.normUTC.instant < now)

/-- `User` model of server.py. -/
structure User where
  id : String
  email : String
  name : String
  picture : Option String
  role : String
  created_at : PyDateTime
  profile_completed : Bool
  deriving DecidableEq

/-- A row of the `user_sessions` collection as written by `process_session`. -/
structure Session where
  user_id : String
  session_token : String
  expires_at : PyDateTime
  created_at : PyDateTime
  deriving DecidableEq

/-- `Competence` model of server.py. -/
structure Competence where
  id : String
  number : Int
  title : String
  description : String
  duration_hours : Int
  units : Int
  learning_objectives : List String
  evaluation_method : String
  evaluation_description : String
  evaluation_criteria : List String
  success_threshold : ℚ
  created_at : PyDateTime
  deriving DecidableEq

/-- `UserProgress` model of server.py. -/
structure UserProgress where
  id : String
  user_id : String
  competence_id : String
  status : String
  current_score : ℚ
  quiz_attempts : Int
  assignment_submitted : Bool
  assignment_score : Option ℚ
  exam_taken : Bool
  exam_score : Option ℚ
  certified : Bool
  started_at : Option PyDateTime
  completed_at : Option PyDateTime
  last_activity : PyDateTime
  deriving DecidableEq

/-- `QuizQuestion` model of server.py. -/
structure QuizQuestion where
  id : String
  competence_id : String
  question : String
  options : List String
  correct_answer : Int
  explanation : Option String
  deriving DecidableEq

/-- `QuizAttempt` model of server.py. -/
structure QuizAttempt where
  id : String
  user_id : String
  competence_id : String
  answers : List Int
  score : ℚ
  passed : Bool
  attempt_number : Int
  created_at : PyDateTime
  deriving DecidableEq

/-- One entry of an AI workshop session transcript. -/
structure ChatMessage where
  role : String
  content : String
  timestamp : Int
  deriving DecidableEq

/-- `AIWorkshopSession` model of server.py. -/
structure AIWorkshopSession where
  id : String
  user_id : String
  competence_id : String
  session_type : String
  status : String
  messages : List ChatMessage
  created_at : PyDateTime
  deriving DecidableEq

/-- `Certificate` model of server.py. -/
structure Certificate where
  id : String
  user_id : String
  competence_id : String
  certificate_number : String
  issued_date : PyDateTime
  score : ℚ
  valid : Bool
  deriving DecidableEq

/-- The document store `db` of server.py: one list per collection the
endpoints touch, in insertion order. -/
structure ServerState where
  users : List User
  user_sessions : List Session
  competences : List Competence
  user_progress : List UserProgress
  quiz_questions : List QuizQuestion
  quiz_attempts : List QuizAttempt
  ai_workshop_sessions : List AIWorkshopSession
  certificates : List Certificate
  deriving DecidableEq

/-- Errors raised with `HTTPException` (or escaping uncaught) in server.py. -/
inductive ApiError where
  | unauthenticated
  | notFound (detail : String)
  | badRequest (detail : String)
  | aiServiceError (detail : String)
  | internalError (detail : String)
  deriving DecidableEq

/-- Mongo `update_one`: rewrite the first element satisfying `p` with `f`. -/
def updateFirst (p : α → Bool) (f : α → α) : List α → List α
  | [] => []
  | x :: xs => if p x then f x :: xs else x :: updateFirst p f xs

/-- `request.cookies` lookup: value of the first cookie with the given name. -/
def cookieLookup (cookies : List (String × String)) (k : String) : Option String :=
  (cookies.find? (fun kv => kv.1 == k)).map (fun kv => kv.2)

/-- Token resolution of `get_current_user`: the `session_token` cookie when
that cookie key is present, otherwise the bearer credentials when present. -/
def resolveToken (cookies : List (String × String)) (bearer : Option String) :
    Option String :=
  match cookieLookup cookies "session_token" with
  | some v => some v
  | none => bearer

/-- `get_current_user` of server.py: resolves the token (cookie preferred,
falsy token rejected), looks the session up, normalizes a naive expiry to
UTC, rejects a strictly-past expiry, then looks the user up.  The function
only reads, so it returns the store unchanged as its second component. -/
def get_current_user (db : ServerState) (cookies : List (String × String))
    (bearer : Option String) (now : Int) : Option User × ServerState :=
  let user :=
    match resolveToken cookies bearer with
    | none => none
    | some session_token =>
      if session_token == "" then none
      else
        match db.user_sessions.find? (fun s => s.session_token == session_token) with
        | none => none
        | some session_data =>
          if isExpired session_data.expires_at now then none
          else
            match db.users.find? (fun u => u.id == session_data.user_id) with
            | some u => some u
            | none => none
  (user, db)

/-- Shape of one item of the `get_quiz_questions` response: only the id,
the question text and the options are ever put in the dict. -/
structure RedactedQuestion where
  id : String
  question : String
  options : List String
  deriving DecidableEq

/-- The dict built for one question in `get_quiz_questions`. -/
def redactQuestion (q : QuizQuestion) : RedactedQuestion :=
  { id := q.id, question := q.question, options := q.options }

/-- `get_quiz_questions` endpoint of server.py. -/
def get_quiz_questions (db : ServerState) (competence_id : String)
    (user : Option User) : Except ApiError (List RedactedQuestion) :=
  match user with
  | none => Except.error ApiError.unauthenticated
  | some _ =>
    let questions := db.quiz_questions.filter (fun q => q.competence_id == competence_id)
    Except.ok (questions.map redactQuestion)

/-- The scoring loop of `submit_quiz`: `for i, question in enumerate(questions):
if i < len(answers) and answers[i] == question["correct_answer"]`.  Walking
both lists in step is the same positional comparison; once the answers run
out every remaining position contributes nothing. -/
def countCorrect : List QuizQuestion → List Int → Nat
  | [], _ => 0
  | _ :: qs, [] => countCorrect qs []
  | q :: qs, a :: rest =>
    (if a == q.correct_answer then 1 else 0) + countCorrect qs rest

/-- Response body of a successful `submit_quiz`. -/
structure SubmitResult where
  score : ℚ
  passed : Bool
  correct_answers : Nat
  total_questions : Nat
  deriving DecidableEq

/-- Stated from the spec's words, for comparison with the code's scoring
loop: the number of positions `i < N` (`N` the number of questions) where
the answer list has an entry at `i` equal to question `i`'s correct-answer
index. -/
def specCorrectCount (questions : List QuizQuestion) (answers : List Int) : Nat :=
  ((List.range questions.length).filter
    (fun i =>
      match questions.get? i, answers.get? i with
      | some q, some a => a == q.correct_answer
      | _, _ => false)).length

/-- `submit_quiz` endpoint of server.py.  `now` is the current UTC instant,
`attempt_id` the UUID generated for the new `QuizAttempt`.  When the
competence row is missing the source subscripts `None`
(`competence["success_threshold"]`), an uncaught `TypeError`: modelled as
`internalError`. -/
def submit_quiz (db : ServerState) (competence_id : String) (answers : List Int)
    (user : Option User) (now : Int) (attempt_id : String) :
    Except ApiError (SubmitResult × ServerState) :=
  match user with
  | none => Except.error ApiError.unauthenticated
  | some user =>
    let questions := db.quiz_questions.filter (fun q => q.competence_id == competence_id)
    if questions.isEmpty then Except.error (ApiError.notFound "Quiz not found")
    else
      let correct_answers := countCorrect questions answers
      let score : ℚ := ((correct_answers : ℚ) / (questions.length : ℚ)) * 100
      match db.competences.find? (fun c => c.id == competence_id) with
      | none => Except.error (ApiError.internalError "TypeError: NoneType is not subscriptable")
      | some competence =>
        let passed := decide (score ≥ competence.success_threshold)
        let existing_attempts :=
          (db.quiz_attempts.filter
            (fun a => a.user_id == user.id && a.competence_id == competence_id)).length
        let attempt : QuizAttempt :=
          { id := attempt_id, user_id := user.id, competence_id := competence_id,
            answers := answers, score := score, passed := passed,
            attempt_number := existing_attempts + 1,
            created_at := { wall := now, tzOffset := some 0 } }
        let db1 := { db with quiz_attempts := db.quiz_attempts ++ [attempt] }
        let newProgress :=
          updateFirst
            (fun p => p.user_id == user.id && p.competence_id == competence_id)
            (fun p => { p with current_score := score,
                               quiz_attempts := existing_attempts + 1,
                               last_activity := { wall := now, tzOffset := some 0 } })
            db1.user_progress
        let db2 := { db1 with user_progress := newProgress }
        Except.ok
          ({ score := score, passed := passed, correct_answers := correct_answers,
             total_questions := questions.length }, db2)

/-- The `UserProgress(...)` constructor call of `start_competence`: status
"in_progress", `started_at = now`, and the model's default values for every
other field (zero score and attempts, flags false, `last_activity = now`). -/
def freshProgress (user_id competence_id : String) (now : Int) (fresh_id : String) :
    UserProgress :=
  { id := fresh_id, user_id := user_id, competence_id := competence_id,
    status := "in_progress", current_score := 0, quiz_attempts := 0,
    assignment_submitted := false, assignment_score := none,
    exam_taken := false, exam_score := none, certified := false,
    started_at := some { wall := now, tzOffset := some 0 },
    completed_at := none,
    last_activity := { wall := now, tzOffset := some 0 } }

/-- `start_competence` endpoint of server.py.  `now` is the current UTC
instant, `fresh_id` the UUID generated for a newly created row. -/
def start_competence (db : ServerState) (competence_id : String)
    (user : Option User) (now : Int) (fresh_id : String) :
    Except ApiError (UserProgress × ServerState) :=
  match user with
  | none => Except.error ApiError.unauthenticated
  | some user =>
    match db.competences.find? (fun c => c.id == competence_id) with
    | none => Except.error (ApiError.notFound "Competence not found")
    | some _ =>
      match db.user_progress.find?
          (fun p => p.user_id == user.id && p.competence_id == competence_id) with
      | some existing_progress => Except.ok (existing_progress, db)
      | none =>
        let progress := freshProgress user.id competence_id now fresh_id
        Except.ok (progress,
          { db with user_progress := db.user_progress ++ [progress] })

instance {ε α : Type} [DecidableEq ε] [DecidableEq α] : DecidableEq (Except ε α) :=
  fun x y =>
    match x, y with
    | Except.error a, Except.error b =>
      if h : a = b then isTrue (by rw [h]) else isFalse (by intro hc; cases hc; exact h rfl)
    | Except.error _, Except.ok _ => isFalse (by intro hc; cases hc)
    | Except.ok _, Except.error _ => isFalse (by intro hc; cases hc)
    | Except.ok a, Except.ok b =>
      if h : a = b then isTrue (by rw [h]) else isFalse (by intro hc; cases hc; exact h rfl)

/-- Outcome of `chat_with_ai`: the HTTP result, the store after the call,
and whether the external AI backend was actually invoked. -/
structure ChatOutcome where
  result : Except ApiError String
  db : ServerState
  aiCalled : Bool
  deriving DecidableEq

/-- `chat_with_ai` endpoint of server.py.  The external LLM is modelled by
`aiReply`: `some r` for a successful reply `r`, `none` for any failure of
the backend (surfaced as the 500 "AI service error").  When the session's
competence row is missing, building the system prompt subscripts `None`
inside the `try`, so the 500 handler fires before any AI call. -/
def chat_with_ai (db : ServerState) (session_id : String) (message : String)
    (user : Option User) (aiReply : Option String) (now : Int) : ChatOutcome :=
  match user with
  | none => { result := Except.error ApiError.unauthenticated, db := db, aiCalled := false }
  | some user =>
    match db.ai_workshop_sessions.find?
        (fun s => s.id == session_id && s.user_id == user.id) with
    | none =>
      { result := Except.error (ApiError.notFound "Workshop session not found"),
        db := db, aiCalled := false }
    | some session_data =>
      match db.competences.find? (fun c => c.id == session_data.competence_id) with
      | none =>
        { result := Except.error (ApiError.aiServiceError "NoneType is not subscriptable"),
          db := db, aiCalled := false }
      | some _competence =>
        match aiReply with
        | none =>
          { result := Except.error (ApiError.aiServiceError "upstream failure"),
            db := db, aiCalled := true }
        | some response =>
          let messages := session_data.messages ++
            [ { role := "user", content := message, timestamp := now },
              { role := "assistant", content := response, timestamp := now } ]
          let newSessions :=
            updateFirst (fun s => s.id == session_id)
              (fun s => { s with messages := messages })
              db.ai_workshop_sessions
          { result := Except.ok response,
            db := { db with ai_workshop_sessions := newSessions },
            aiCalled := true }

/-- Response body of `get_dashboard`. -/
structure DashboardData where
  user : User
  overall_progress : ℚ
  total_competences : Nat
  completed_competences : Nat
  in_progress_competences : Nat
  certificates_earned : Nat
  progress_list : List UserProgress
  certificates : List Certificate
  deriving DecidableEq

/-- `get_dashboard` endpoint of server.py. -/
def get_dashboard (db : ServerState) (user : Option User) :
    Except ApiError DashboardData :=
  match user with
  | none => Except.error ApiError.unauthenticated
  | some user =>
    let progress_list := db.user_progress.filter (fun p => p.user_id == user.id)
    let certificates := db.certificates.filter (fun c => c.user_id == user.id)
    let total_competences := db.competences.length
    let completed_competences :=
      (progress_list.filter (fun p => p.status == "completed")).length
    let in_progress_competences :=
      (progress_list.filter (fun p => p.status == "in_progress")).length
    let overall_progress : ℚ :=
      if total_competences > 0 then
        ((completed_competences : ℚ) / (total_competences : ℚ)) * 100
      else 0
    Except.ok
      { user := user, overall_progress := overall_progress,
        total_competences := total_competences,
        completed_competences := completed_competences,
        in_progress_competences := in_progress_competences,
        certificates_earned := certificates.length,
        progress_list := progress_list, certificates := certificates }

/-! ## Concrete fixtures used by witnesses and counterexamples -/

/-- A learner, as `process_session` would create one. -/
def userA : User :=
  { id := "u1", email := "a@example.com", name := "Ada", picture := none,
    role := "learner", created_at := { wall := 0, tzOffset := some 0 },
    profile_completed := false }

/-- A competence with threshold 50, shaped like the seeded catalog rows. -/
def compA : Competence :=
  { id := "c1", number := 1, title := "Module 1", description := "Intro",
    duration_hours := 15, units := 1, learning_objectives := ["obj1"],
    evaluation_method := "jury", evaluation_description := "oral",
    evaluation_criteria := ["coherence"], success_threshold := 50,
    created_at := { wall := 0, tzOffset := some 0 } }

/-- First sample question of competence c1 (correct option 1). -/
def q1 : QuizQuestion :=
  { id := "q1", competence_id := "c1", question := "first question",
    options := ["a", "b", "c"], correct_answer := 1, explanation := none }

/-- Second sample question of competence c1 (correct option 0). -/
def q2 : QuizQuestion :=
  { id := "q2", competence_id := "c1", question := "second question",
    options := ["x", "y"], correct_answer := 0, explanation := none }

/-- The empty document store. -/
def emptyDb : ServerState :=
  { users := [], user_sessions := [], competences := [], user_progress := [],
    quiz_questions := [], quiz_attempts := [], ai_workshop_sessions := [],
    certificates := [] }

/-- Store holding one competence with a two-question quiz and one user. -/
def dbQuiz : ServerState :=
  { emptyDb with users := [userA], competences := [compA],
                 quiz_questions := [q1, q2] }

/-- Store with a quiz question whose competence row is absent (soft
references are not enforced, per the data model). -/
def dbNoComp : ServerState :=
  { emptyDb with users := [userA], quiz_questions := [q1] }

/-- An unexpired session whose user id matches no user row. -/
def sessGhost : Session :=
  { user_id := "ghost", session_token := "tok1",
    expires_at := { wall := 100, tzOffset := some 0 },
    created_at := { wall := 0, tzOffset := some 0 } }

/-- Store holding only the dangling session. -/
def dbGhost : ServerState :=
  { emptyDb with user_sessions := [sessGhost] }

/-! ## Helper lemmas -/

theorem countCorrect_nil_answers (qs : List QuizQuestion) : countCorrect qs [] = 0 := by
  induction qs with
  | nil => rfl
  | cons q qs ih => simpa [countCorrect] using ih

theorem specCorrectCount_nil_answers (qs : List QuizQuestion) :
    specCorrectCount qs [] = 0 := by
  unfold specCorrectCount
  rw [List.filter_eq_nil_iff.mpr]
  · rfl
  · intro i _
    cases h : qs.get? i <;> simp [h]

theorem specCorrectCount_cons (q : QuizQuestion) (qs : List QuizQuestion)
    (a : Int) (rest : List Int) :
    specCorrectCount (q :: qs) (a :: rest) =
      (if a == q.correct_answer then 1 else 0) + specCorrectCount qs rest := by
  unfold specCorrectCount
  rw [List.length_cons, List.range_succ_eq_map, List.filter_cons, List.filter_map]
  have hpred :
      ((fun i =>
        match (q :: qs).get? i, (a :: rest).get? i with
        | some q', some a' => a' == q'.correct_answer
        | _, _ => false) ∘ Nat.succ) =
      (fun i =>
        match qs.get? i, rest.get? i with
        | some q', some a' => a' == q'.correct_answer
        | _, _ => false) := by
    funext i
    rfl
  rw [hpred]
  cases hb : (a == q.correct_answer) <;> simp [hb, Nat.add_comm]

/-- The code's scoring loop counts exactly the positions where the answer
entry equals the question's correct index. -/
theorem countCorrect_eq_specCorrectCount (qs : List QuizQuestion) (answers : List Int) :
    countCorrect qs answers = specCorrectCount qs answers := by
  induction qs generalizing answers with
  | nil => cases answers <;> rfl
  | cons q qs ih =>
    cases answers with
    | nil => rw [countCorrect_nil_answers, specCorrectCount_nil_answers]
    | cons a rest => rw [countCorrect, specCorrectCount_cons, ih]

theorem length_updateFirst (p : α → Bool) (f : α → α) (l : List α) :
    (updateFirst p f l).length = l.length := by
  induction l with
  | nil => rfl
  | cons x xs ih =>
    unfold updateFirst
    cases hx : p x <;> simp [ih]

theorem updateFirst_of_find?_none (p : α → Bool) (f : α → α) (l : List α)
    (h : l.find? p = none) : updateFirst p f l = l := by
  induction l with
  | nil => rfl
  | cons x xs ih =>
    cases hx : p x with
    | true => rw [List.find?_cons_of_pos _ hx] at h; cases h
    | false =>
      rw [List.find?_cons_of_neg _ (by simp [hx])] at h
      unfold updateFirst
      rw [hx]
      simp [ih h]

theorem get?_updateFirst (p : α → Bool) (f : α → α) (l : List α) (i : Nat) :
    (updateFirst p f l).get? i = l.get? i ∨
      ((updateFirst p f l).get? i = (l.get? i).map f ∧
        ∃ x, l.get? i = some x ∧ p x = true) := by
  induction l generalizing i with
  | nil => left; rfl
  | cons x xs ih =>
    unfold updateFirst
    cases hx : p x with
    | true =>
      cases i with
      | zero => exact Or.inr ⟨rfl, x, rfl, hx⟩
      | succ n => left; rfl
    | false =>
      cases i with
      | zero => left; rfl
      | succ n => exact ih n

theorem find?_append_of_none (p : α → Bool) (l1 l2 : List α)
    (h : l1.find? p = none) : (l1 ++ l2).find? p = l2.find? p := by
  induction l1 with
  | nil => rfl
  | cons x xs ih =>
    cases hx : p x with
    | true => rw [List.find?_cons_of_pos _ hx] at h; cases h
    | false =>
      rw [List.find?_cons_of_neg _ (by simp [hx])] at h
      rw [List.cons_append, List.find?_cons_of_neg _ (by simp [hx])]
      exact ih h

/-! ## C1: quiz submission scoring -/

/-- C1.  Quiz submission scoring: for an authenticated user and a competence
whose stored question list is non-empty, `submit_quiz` succeeds; the number
of correct answers is exactly the number of positions `i < N` where the
answer list has an entry equal to question `i`'s correct-answer index
(missing positions count as incorrect); the score is exactly
`100·k/N`; and the passed flag is true exactly when the score is at least
the competence's stored `success_threshold`. -/
theorem quiz_scoring_by_position (db : ServerState) (u : User)
    (competence_id : String) (answers : List Int) (comp : Competence)
    (now : Int) (attempt_id : String)
    (hq : db.quiz_questions.filter (fun q => q.competence_id == competence_id) ≠ [])
    (hc : db.competences.find? (fun c => c.id == competence_id) = some comp) :
    ∃ res db2,
      submit_quiz db competence_id answers (some u) now attempt_id =
        Except.ok (res, db2) ∧
      res.correct_answers =
        specCorrectCount
          (db.quiz_questions.filter (fun q => q.competence_id == competence_id))
          answers ∧
      res.total_questions =
        (db.quiz_questions.filter (fun q => q.competence_id == competence_id)).length ∧
      res.score = 100 * (res.correct_answers : ℚ) / (res.total_questions : ℚ) ∧
      (res.passed = true ↔ comp.success_threshold ≤ res.score) := by
  have hne : (db.quiz_questions.filter
      (fun q => q.competence_id == competence_id)).isEmpty = false := by
    cases hfe : (db.quiz_questions.filter
        (fun q => q.competence_id == competence_id)).isEmpty
    · rfl
    · exact absurd (List.isEmpty_iff.mp hfe) hq
  simp only [submit_quiz, hne, hc, Bool.false_eq_true, if_false]
  refine ⟨_, _, rfl, countCorrect_eq_specCorrectCount _ _, rfl, ?_, ?_⟩
  · show ((countCorrect _ answers : ℚ) / _) * 100 = _
    ring
  · simp [ge_iff_le]

/-- Witness for C1 at a concrete store: two questions, answers `[1, 2]`
score one of two, 50 %, passing the threshold 50. -/
theorem quiz_scoring_by_position_witness :
    dbQuiz.quiz_questions.filter (fun q => q.competence_id == "c1") ≠ [] ∧
    dbQuiz.competences.find? (fun c => c.id == "c1") = some compA ∧
    (∃ res db2,
      submit_quiz dbQuiz "c1" [1, 2] (some userA) 0 "att1" = Except.ok (res, db2) ∧
      res.correct_answers =
        specCorrectCount
          (dbQuiz.quiz_questions.filter (fun q => q.competence_id == "c1")) [1, 2] ∧
      res.total_questions =
        (dbQuiz.quiz_questions.filter (fun q => q.competence_id == "c1")).length ∧
      res.score = 100 * (res.correct_answers : ℚ) / (res.total_questions : ℚ) ∧
      (res.passed = true ↔ compA.success_threshold ≤ res.score)) :=
  ⟨by decide, by decide,
    quiz_scoring_by_position dbQuiz userA "c1" [1, 2] compA 0 "att1"
      (by decide) (by decide)⟩

/-! ## C2: question redaction -/

/-- Two question rows that agree on every field the redacted response is
built from (id, competence reference, text, options); the correct-answer
index and the explanation are unconstrained. -/
def agreesOnPublicFields (x y : QuizQuestion) : Prop :=
  x.id = y.id ∧ x.competence_id = y.competence_id ∧
  x.question = y.question ∧ x.options = y.options

theorem redactQuestion_eq_of_agrees {x y : QuizQuestion}
    (h : agreesOnPublicFields x y) : redactQuestion x = redactQuestion y := by
  obtain ⟨h1, _, h3, h4⟩ := h
  simp [redactQuestion, h1, h3, h4]

theorem redacted_map_filter_eq {l1 l2 : List QuizQuestion} (cid : String)
    (h : List.Forall₂ agreesOnPublicFields l1 l2) :
    (l1.filter (fun q => q.competence_id == cid)).map redactQuestion =
      (l2.filter (fun q => q.competence_id == cid)).map redactQuestion := by
  induction h with
  | nil => rfl
  | @cons x y t1 t2 hxy hrest ih =>
    rw [List.filter_cons, List.filter_cons, hxy.2.1]
    cases hb : (y.competence_id == cid)
    · simpa [hb] using ih
    · simp [hb, List.map_cons, redactQuestion_eq_of_agrees hxy, ih]

/-- C2.  Question redaction: for every competence id and every store, the
get-quiz-questions operation returns one item per stored question of that
competence, each item carrying exactly the question's id, text and options
(the `RedactedQuestion` shape has no correct-answer field); and the response
is unchanged under any change to the stored correct-answer indices (and
explanations), so no returned item depends on a correct-answer index. -/
theorem question_redaction (db : ServerState) (u : User) (competence_id : String) :
    ∃ rs, get_quiz_questions db competence_id (some u) = Except.ok rs ∧
      rs.length =
        (db.quiz_questions.filter (fun q => q.competence_id == competence_id)).length ∧
      (∀ i, rs.get? i =
        ((db.quiz_questions.filter
          (fun q => q.competence_id == competence_id)).get? i).map redactQuestion) ∧
      (∀ db2 : ServerState,
        List.Forall₂ agreesOnPublicFields db.quiz_questions db2.quiz_questions →
        get_quiz_questions db2 competence_id (some u) = Except.ok rs) := by
  refine ⟨_, rfl, List.length_map _ _, fun i => List.get?_map _ _ _, fun db2 h => ?_⟩
  simp only [get_quiz_questions]
  exact congrArg Except.ok (redacted_map_filter_eq competence_id h).symm

/-! ## C3: session authentication (amended) and its counterexample -/

/-- C3 (amended).  Current-user resolution returns no user exactly when: no
token is presented, the presented token is the empty string, the token has
no session row, the stored expiry (normalized to UTC when naive) is strictly
before the current UTC time, or — the case the original claim omits — the
session's user id has no row in the user store.  The check modifies no
store state (second conjunct). -/
theorem current_user_none_iff (db : ServerState) (cookies : List (String × String))
    (bearer : Option String) (now : Int) :
    ((get_current_user db cookies bearer now).1 = none ↔
      resolveToken cookies bearer = none ∨
      resolveToken cookies bearer = some "" ∨
      (∃ t, resolveToken cookies bearer = some t ∧ t ≠ "" ∧
        (db.user_sessions.find? (fun s => s.session_token == t) = none ∨
          ∃ sd, db.user_sessions.find? (fun s => s.session_token == t) = some sd ∧
            (isExpired sd.expires_at now = true ∨
              db.users.find? (fun v => v.id == sd.user_id) = none)))) ∧
    (get_current_user db cookies bearer now).2 = db := by
  refine ⟨?_, rfl⟩
  rcases hT : resolveToken cookies bearer with _ | t
  · exact iff_of_true (by simp [get_current_user, hT]) (Or.inl rfl)
  · by_cases ht0 : t = ""
    · subst ht0
      exact iff_of_true (by simp [get_current_user, hT]) (Or.inr (Or.inl rfl))
    · rcases hS : db.user_sessions.find? (fun s => s.session_token == t) with _ | sd
      · exact iff_of_true (by simp [get_current_user, hT, ht0, hS])
          (Or.inr (Or.inr ⟨t, rfl, ht0, Or.inl hS⟩))
      · cases hE : isExpired sd.expires_at now
        · rcases hU : db.users.find? (fun v => v.id == sd.user_id) with _ | w
          · exact iff_of_true (by simp [get_current_user, hT, ht0, hS, hE, hU])
              (Or.inr (Or.inr ⟨t, rfl, ht0, Or.inr ⟨sd, hS, Or.inr hU⟩⟩))
          · refine iff_of_false ?_ ?_
            · simp [get_current_user, hT, ht0, hS, hE, hU]
            · rintro (h | h | ⟨t2, ht2, hne2, hrest⟩)
              · cases h
              · injection h with h2; exact ht0 h2
              · injection ht2 with h2
                subst h2
                rcases hrest with hfind | ⟨sd2, hsd2, hbad⟩
                · rw [hS] at hfind; cases hfind
                · rw [hS] at hsd2
                  injection hsd2 with h3
                  subst h3
                  rcases hbad with hbe | hbu
                  · rw [hE] at hbe; cases hbe
                  · rw [hU] at hbu; cases hbu
        · exact iff_of_true (by simp [get_current_user, hT, ht0, hS, hE])
            (Or.inr (Or.inr ⟨t, rfl, ht0, Or.inr ⟨sd, hS, Or.inl hE⟩⟩))

/-- Counterexample to C3 as stated: a token is presented (and is non-empty),
its session row exists and is unexpired, yet resolution returns no user —
the session references a user id with no user row, a failure case the
claim's "only when" list does not contain. -/
theorem current_user_dangling_cex :
    (get_current_user dbGhost [("session_token", "tok1")] none 0).1 = none ∧
    resolveToken [("session_token", "tok1")] none = some "tok1" ∧
    ("tok1" : String) ≠ "" ∧
    dbGhost.user_sessions.find? (fun s => s.session_token == "tok1") = some sessGhost ∧
    isExpired sessGhost.expires_at 0 = false := by
  decide

/-! ## C4: quiz submission failure contract (amended) and its counterexample -/

theorem isEmpty_false_of_ne_nil {l : List α} (h : l ≠ []) : l.isEmpty = false := by
  cases hfe : l.isEmpty
  · rfl
  · exact absurd (List.isEmpty_iff.mp hfe) h

/-- Counterexample to C4 as stated: with a stored question whose competence
row is absent, submission by an authenticated user neither fails with "not
found" nor succeeds — it escapes with the uncaught subscript error from
`competence["success_threshold"]`. -/
theorem submit_quiz_dangling_question_cex :
    submit_quiz dbNoComp "c1" [1] (some userA) 0 "att1" =
      Except.error (ApiError.internalError "TypeError: NoneType is not subscriptable") ∧
    dbNoComp.quiz_questions.filter (fun q => q.competence_id == "c1") ≠ [] := by
  decide

/-- C4 (amended).  For an authenticated user, submission fails with "not
found" exactly when no quiz questions are stored for the competence id;
when at least one question is stored and the competence row exists it
succeeds with the result object; and — the case the original claim misses —
when questions exist but the competence row is missing it fails with an
uncaught-exception error instead of succeeding. -/
theorem submit_quiz_failure_contract (db : ServerState) (u : User)
    (competence_id : String) (answers : List Int) (now : Int) (attempt_id : String) :
    (submit_quiz db competence_id answers (some u) now attempt_id =
        Except.error (ApiError.notFound "Quiz not found") ↔
      db.quiz_questions.filter (fun q => q.competence_id == competence_id) = []) ∧
    (∀ comp, db.competences.find? (fun c => c.id == competence_id) = some comp →
      db.quiz_questions.filter (fun q => q.competence_id == competence_id) ≠ [] →
      ∃ res db2, submit_quiz db competence_id answers (some u) now attempt_id =
        Except.ok (res, db2)) ∧
    (db.quiz_questions.filter (fun q => q.competence_id == competence_id) ≠ [] →
      db.competences.find? (fun c => c.id == competence_id) = none →
      submit_quiz db competence_id answers (some u) now attempt_id =
        Except.error (ApiError.internalError "TypeError: NoneType is not subscriptable")) := by
  refine ⟨⟨?_, ?_⟩, ?_, ?_⟩
  · intro h
    by_contra hne
    have hisEmpty := isEmpty_false_of_ne_nil hne
    rcases hcf : db.competences.find? (fun c => c.id == competence_id) with _ | c
    · simp [submit_quiz, hisEmpty, hcf] at h
    · simp [submit_quiz, hisEmpty, hcf] at h
  · intro h
    have hisEmpty : (db.quiz_questions.filter
        (fun q => q.competence_id == competence_id)).isEmpty = true :=
      List.isEmpty_iff.mpr h
    simp [submit_quiz, hisEmpty]
  · intro comp hc hq
    have hisEmpty := isEmpty_false_of_ne_nil hq
    simp only [submit_quiz, hisEmpty, hc, Bool.false_eq_true, if_false]
    exact ⟨_, _, rfl⟩
  · intro hq hcn
    have hisEmpty := isEmpty_false_of_ne_nil hq
    simp [submit_quiz, hisEmpty, hcn]

/-! ## C5: idempotent start -/

/-- C5.  Idempotent start: for an existing competence, if a progress row for
(user, competence) exists, `start_competence` returns it unchanged with the
store unchanged; if none exists, a new row with status "in_progress" and
`started_at = now` is created and appended, and any second call returns the
same row (same `started_at`) and changes nothing. -/
theorem start_competence_idempotent (db : ServerState) (u : User)
    (competence_id : String) (now : Int) (fresh_id : String) (comp : Competence)
    (hc : db.competences.find? (fun c => c.id == competence_id) = some comp) :
    (∀ p, db.user_progress.find?
        (fun r => r.user_id == u.id && r.competence_id == competence_id) = some p →
      start_competence db competence_id (some u) now fresh_id = Except.ok (p, db)) ∧
    (db.user_progress.find?
        (fun r => r.user_id == u.id && r.competence_id == competence_id) = none →
      ∃ p db2,
        start_competence db competence_id (some u) now fresh_id = Except.ok (p, db2) ∧
        p.status = "in_progress" ∧
        p.started_at = some { wall := now, tzOffset := some 0 } ∧
        db2.user_progress = db.user_progress ++ [p] ∧
        db2.competences = db.competences ∧
        ∀ now2 fid2, start_competence db2 competence_id (some u) now2 fid2 =
          Except.ok (p, db2)) := by
  constructor
  · intro p hp
    simp [start_competence, hc, hp]
  · intro hnone
    simp only [start_competence, hc, hnone]
    refine ⟨_, _, rfl, rfl, rfl, rfl, rfl, ?_⟩
    intro now2 fid2
    have hfind2 :
        (db.user_progress ++ [freshProgress u.id competence_id now fresh_id]).find?
            (fun r => r.user_id == u.id && r.competence_id == competence_id) =
          some (freshProgress u.id competence_id now fresh_id) := by
      rw [find?_append_of_none _ _ _ hnone]
      simp [freshProgress]
    simp [start_competence, hc, hfind2]

/-- Witness for C5 at a concrete store with one competence and no progress
row: the second call returns the row created by the first, unchanged. -/
theorem start_competence_idempotent_witness :
    dbQuiz.competences.find? (fun c => c.id == "c1") = some compA ∧
    ((∀ p, dbQuiz.user_progress.find?
        (fun r => r.user_id == userA.id && r.competence_id == "c1") = some p →
      start_competence dbQuiz "c1" (some userA) 5 "p1" = Except.ok (p, dbQuiz)) ∧
    (dbQuiz.user_progress.find?
        (fun r => r.user_id == userA.id && r.competence_id == "c1") = none →
      ∃ p db2,
        start_competence dbQuiz "c1" (some userA) 5 "p1" = Except.ok (p, db2) ∧
        p.status = "in_progress" ∧
        p.started_at = some { wall := 5, tzOffset := some 0 } ∧
        db2.user_progress = dbQuiz.user_progress ++ [p] ∧
        db2.competences = dbQuiz.competences ∧
        ∀ now2 fid2, start_competence db2 "c1" (some userA) now2 fid2 =
          Except.ok (p, db2))) :=
  ⟨by decide, start_competence_idempotent dbQuiz userA "c1" 5 "p1" compA (by decide)⟩

/-! ## C6: credential-channel equivalence -/

/-- C6.  Credential-channel equivalence: for every token value and every
store state, current-user resolution gives the same result (and the same
final store) whether the token arrives only as the `session_token` cookie
or only as a bearer header; and when both a cookie and a bearer credential
are presented, the outcome equals the cookie-only outcome — the cookie
token is the one used. -/
theorem credential_channel_equivalence (db : ServerState) (t : String) (now : Int) :
    (get_current_user db [("session_token", t)] none now =
      get_current_user db [] (some t) now) ∧
    (∀ bearer : Option String,
      get_current_user db [("session_token", t)] bearer now =
        get_current_user db [("session_token", t)] none now) := by
  constructor
  · rfl
  · intro bearer
    rfl

/-! ## C7: workshop chat ownership -/

/-- A workshop session owned by a different user than `userA`. -/
def sessOther : AIWorkshopSession :=
  { id := "s1", user_id := "u2", competence_id := "c1",
    session_type := "individual", status := "active", messages := [],
    created_at := { wall := 0, tzOffset := some 0 } }

/-- Store in which session s1 exists but belongs to user u2. -/
def dbChat : ServerState :=
  { dbQuiz with ai_workshop_sessions := [sessOther] }

/-- C7.  Workshop chat ownership: when no workshop session row matches both
the session id and the requesting user's id (nonexistent session, or a
session owned by another user), the chat operation fails with "not found",
makes no call to the external AI backend, and leaves the store unchanged. -/
theorem chat_ownership_not_found (db : ServerState) (u : User)
    (session_id message : String) (aiReply : Option String) (now : Int)
    (h : db.ai_workshop_sessions.find?
        (fun s => s.id == session_id && s.user_id == u.id) = none) :
    chat_with_ai db session_id message (some u) aiReply now =
      { result := Except.error (ApiError.notFound "Workshop session not found"),
        db := db, aiCalled := false } := by
  simp [chat_with_ai, h]

/-- Witness for C7: session s1 exists but is owned by u2, so userA's chat
request is rejected before any AI call and the store is untouched. -/
theorem chat_ownership_not_found_witness :
    dbChat.ai_workshop_sessions.find?
        (fun s => s.id == "s1" && s.user_id == userA.id) = none ∧
    chat_with_ai dbChat "s1" "bonjour" (some userA) (some "reply") 0 =
      { result := Except.error (ApiError.notFound "Workshop session not found"),
        db := dbChat, aiCalled := false } :=
  ⟨by decide,
    chat_ownership_not_found dbChat userA "s1" "bonjour" (some "reply") 0 (by decide)⟩

/-! ## C8: dashboard progress percentage -/

/-- C8.  Dashboard progress: for every authenticated user the dashboard
succeeds; overall_progress is 0 when the catalog is empty (no
division-by-zero failure) and exactly 100·completed/total otherwise, where
completed counts the user's progress rows with status "completed". -/
theorem dashboard_overall_progress (db : ServerState) (u : User) :
    ∃ d, get_dashboard db (some u) = Except.ok d ∧
      d.total_competences = db.competences.length ∧
      d.completed_competences =
        ((db.user_progress.filter (fun p => p.user_id == u.id)).filter
          (fun p => p.status == "completed")).length ∧
      (db.competences.length = 0 → d.overall_progress = 0) ∧
      (db.competences.length ≠ 0 →
        d.overall_progress =
          100 * (d.completed_competences : ℚ) / (d.total_competences : ℚ)) := by
  refine ⟨_, rfl, rfl, rfl, ?_, ?_⟩
  · intro h
    simp [h]
  · intro h
    have hpos : 0 < db.competences.length := Nat.pos_of_ne_zero h
    simp only [gt_iff_lt, hpos, if_true]
    rw [div_mul_eq_mul_div, mul_comm]

/-! ## C9: quiz submission progress frame -/

theorem updateFirst_get?_cases (pr : α → Bool) (f : α → α) (l : List α)
    (i : Nat) (x y : α) (hx : l.get? i = some x)
    (hy : (updateFirst pr f l).get? i = some y) :
    y = x ∨ (y = f x ∧ pr x = true) := by
  rcases get?_updateFirst pr f l i with h | ⟨h, z, hz, hpz⟩
  · rw [hy, hx] at h
    exact Or.inl (Option.some_injective _ h)
  · rw [hy, hx] at h
    simp only [Option.map_some'] at h
    rw [hx] at hz
    injection hz with hz2
    subst hz2
    exact Or.inr ⟨Option.some_injective _ h, hpz⟩

/-- C9.  Quiz submission progress frame: a successful submission keeps the
progress collection's length; if no row matches the (user, competence) pair
the collection is completely unchanged (no row is created, yet the
submission succeeds); every row that does not match the pair is left
entirely unchanged; and every row keeps its id, user, competence, status,
assignment/exam fields, certified flag, started_at and completed_at — so at
most current_score, quiz_attempts and last_activity of the pair's row may
change. -/
theorem submit_quiz_progress_frame (db : ServerState) (u : User)
    (competence_id : String) (answers : List Int) (now : Int) (attempt_id : String)
    (comp : Competence)
    (hq : db.quiz_questions.filter (fun q => q.competence_id == competence_id) ≠ [])
    (hc : db.competences.find? (fun c => c.id == competence_id) = some comp) :
    ∃ res db2,
      submit_quiz db competence_id answers (some u) now attempt_id =
        Except.ok (res, db2) ∧
      db2.user_progress.length = db.user_progress.length ∧
      (db.user_progress.find?
          (fun p => p.user_id == u.id && p.competence_id == competence_id) = none →
        db2.user_progress = db.user_progress) ∧
      (∀ i p p2, db.user_progress.get? i = some p →
        db2.user_progress.get? i = some p2 →
        ¬(p.user_id = u.id ∧ p.competence_id = competence_id) → p2 = p) ∧
      (∀ i p p2, db.user_progress.get? i = some p →
        db2.user_progress.get? i = some p2 →
        p2.id = p.id ∧ p2.user_id = p.user_id ∧ p2.competence_id = p.competence_id ∧
        p2.status = p.status ∧ p2.assignment_submitted = p.assignment_submitted ∧
        p2.assignment_score = p.assignment_score ∧ p2.exam_taken = p.exam_taken ∧
        p2.exam_score = p.exam_score ∧ p2.certified = p.certified ∧
        p2.started_at = p.started_at ∧ p2.completed_at = p.completed_at) := by
  have hisEmpty := isEmpty_false_of_ne_nil hq
  simp only [submit_quiz, hisEmpty, hc, Bool.false_eq_true, if_false]
  refine ⟨_, _, rfl, length_updateFirst _ _ _, ?_, ?_, ?_⟩
  · intro hnone
    exact updateFirst_of_find?_none _ _ _ hnone
  · intro i p p2 hp hp2 hmis
    rcases updateFirst_get?_cases _ _ _ i p p2 hp hp2 with h | ⟨_, hmatch⟩
    · exact h
    · rw [Bool.and_eq_true, beq_iff_eq, beq_iff_eq] at hmatch
      exact absurd hmatch hmis
  · intro i p p2 hp hp2
    rcases updateFirst_get?_cases _ _ _ i p p2 hp hp2 with h | ⟨h, _⟩
    · subst h
      exact ⟨rfl, rfl, rfl, rfl, rfl, rfl, rfl, rfl, rfl, rfl, rfl⟩
    · subst h
      exact ⟨rfl, rfl, rfl, rfl, rfl, rfl, rfl, rfl, rfl, rfl, rfl⟩

/-- Witness for C9 at the concrete quiz store (no progress rows): the
submission succeeds and the progress collection stays empty. -/
theorem submit_quiz_progress_frame_witness :
    dbQuiz.quiz_questions.filter (fun q => q.competence_id == "c1") ≠ [] ∧
    dbQuiz.competences.find? (fun c => c.id == "c1") = some compA ∧
    (∃ res db2,
      submit_quiz dbQuiz "c1" [1, 0] (some userA) 0 "att1" =
        Except.ok (res, db2) ∧
      db2.user_progress.length = dbQuiz.user_progress.length ∧
      (dbQuiz.user_progress.find?
          (fun p => p.user_id == userA.id && p.competence_id == "c1") = none →
        db2.user_progress = dbQuiz.user_progress) ∧
      (∀ i p p2, dbQuiz.user_progress.get? i = some p →
        db2.user_progress.get? i = some p2 →
        ¬(p.user_id = userA.id ∧ p.competence_id = "c1") → p2 = p) ∧
      (∀ i p p2, dbQuiz.user_progress.get? i = some p →
        db2.user_progress.get? i = some p2 →
        p2.id = p.id ∧ p2.user_id = p.user_id ∧ p2.competence_id = p.competence_id ∧
        p2.status = p.status ∧ p2.assignment_submitted = p.assignment_submitted ∧
        p2.assignment_score = p.assignment_score ∧ p2.exam_taken = p.exam_taken ∧
        p2.exam_score = p.exam_score ∧ p2.certified = p.certified ∧
        p2.started_at = p.started_at ∧ p2.completed_at = p.completed_at)) :=
  ⟨by decide, by decide,
    submit_quiz_progress_frame dbQuiz userA "c1" [1, 0] 0 "att1" compA
      (by decide) (by decide)⟩

/-! ## C10: dangling session rejected -/

/-- C10.  Dangling-session edge case: a presented non-empty token whose
session row exists and is unexpired, but whose referenced user id has no
user row, resolves to no user — rejected exactly like an unknown token. -/
theorem dangling_session_unauthenticated (db : ServerState)
    (cookies : List (String × String)) (bearer : Option String) (now : Int)
    (t : String) (sd : Session)
    (ht : resolveToken cookies bearer = some t) (hne : t ≠ "")
    (hs : db.user_sessions.find? (fun s => s.session_token == t) = some sd)
    (hexp : isExpired sd.expires_at now = false)
    (hu : db.users.find? (fun v => v.id == sd.user_id) = none) :
    (get_current_user db cookies bearer now).1 = none := by
  simp [get_current_user, ht, hne, hs, hexp, hu]

/-- Witness for C10: the store with an unexpired session for the absent
user "ghost" rejects the session's token. -/
theorem dangling_session_unauthenticated_witness :
    resolveToken [("session_token", "tok1")] none = some "tok1" ∧
    ("tok1" : String) ≠ "" ∧
    dbGhost.user_sessions.find? (fun s => s.session_token == "tok1") = some sessGhost ∧
    isExpired sessGhost.expires_at 0 = false ∧
    dbGhost.users.find? (fun v => v.id == sessGhost.user_id) = none ∧
    (get_current_user dbGhost [("session_token", "tok1")] none 0).1 = none :=
  ⟨by decide, by decide, by decide, by decide, by decide,
    dangling_session_unauthenticated dbGhost [("session_token", "tok1")] none 0
      "tok1" sessGhost (by decide) (by decide) (by decide) (by decide) (by decide)⟩

end FormationAn
